import Mathlib

/-!
Verification development for the solar setup tracker's evaluation engine
(statistics aggregator and diagnostics engine).

Shallow embedding conventions:
* JS numbers are modelled by `ℚ`.  Every textual component property is read
  in the source through `getNum` (`parseFloat`, giving `NaN` for empty or
  unparsable text); a property field is therefore modelled as `Option ℚ`,
  `none` standing for `NaN` and `some q` for a finite parsed value.
* `selectedPanelId` is read via `Number(...)` and compared against panel ids,
  `assignedMpptId` is compared as a string against `String(mppt.id)` and
  tested for emptiness; both are modelled as `Option Nat` (`none` = the
  empty/unparsable reference, `some n` = a reference to the id `n`).
* Message texts are the exact strings of the source; the numeric rendering
  helpers `qToFixed` (JS `toFixed`) and `qToString` (plain interpolation)
  produce the interpolated digits.
-/

/-- The seven diagnostic levels of the source (`MessageLevel`). -/
inductive MessageLevel
  | error
  | warnSafety
  | warnSizing
  | warnCRate
  | warn
  | infoSafety
  | info
deriving DecidableEq, Repr

/-- Source: `levelPrefixMap`, the fixed marker prepended to each message. -/
def levelPrefixMap : MessageLevel → String
  | .error => "Error:"
  | .warnSafety => "Warning (Safety Margin):"
  | .warnSizing => "Warning (Sizing):"
  | .warnCRate => "Warning (C-Rate):"
  | .warn => "Warning:"
  | .infoSafety => "Info (Safety Margin):"
  | .info => "Info:"

/-- Source: `m.level.startsWith('warn')` on the string level tags. -/
def levelIsWarn : MessageLevel → Bool
  | .warnSafety => true
  | .warnSizing => true
  | .warnCRate => true
  | .warn => true
  | _ => false

/-- Source: `CategorizedMessage { level, text }`. -/
structure CategorizedMessage where
  level : MessageLevel
  text : String
deriving DecidableEq, Repr

/-- Source: the `add` helper inside `messages`:
`msgs.push({ level, text: levelPrefixMap[level] + ' ' + text })`. -/
def mkMsg (l : MessageLevel) (body : String) : CategorizedMessage :=
  ⟨l, levelPrefixMap l ++ " " ++ body⟩

/-- `IndividualSolarPanelProps`: each field is the `getNum`-parsed value. -/
structure IndividualSolarPanelProps where
  voc : Option ℚ
  isc : Option ℚ
  vmp : Option ℚ
  imp : Option ℚ
  pmax : Option ℚ
  costUsd : Option ℚ
  tempCoeffVocPctPerC : Option ℚ
  tempCoeffPmaxPctPerC : Option ℚ
deriving DecidableEq, Repr

/-- `SolarArrayConfigurationProps`; the two id references are modelled as
`Option Nat` (see the header comment). -/
structure SolarArrayConfigurationProps where
  selectedPanelId : Option Nat
  panelsInSeries : Option ℚ
  numberOfStrings : Option ℚ
  assignedMpptId : Option Nat
deriving DecidableEq, Repr

/-- `MpptChargeControllerProps`. -/
structure MpptChargeControllerProps where
  maxInputVoltage : Option ℚ
  maxInputCurrent : Option ℚ
  maxOutputCurrent : Option ℚ
  nominalBatteryVoltage : Option ℚ
  costUsd : Option ℚ
deriving DecidableEq, Repr

/-- `BatteryProps`. -/
structure BatteryProps where
  nominalVoltage : Option ℚ
  capacityAh : Option ℚ
  maxChargeCurrent : Option ℚ
  maxDischargeCurrent : Option ℚ
  costUsd : Option ℚ
deriving DecidableEq, Repr

/-- `InverterProps`. -/
structure InverterProps where
  inputVoltageMin : Option ℚ
  inputVoltageMax : Option ℚ
  ratedPower : Option ℚ
  surgePower : Option ℚ
  efficiencyPct : Option ℚ
  idleDrawW : Option ℚ
  costUsd : Option ℚ
deriving DecidableEq, Repr

/-- The discriminated union of the five component kinds (`AnyComponent`'s
`type` tag together with the `properties` record). -/
inductive ComponentProps
  | panel (p : IndividualSolarPanelProps)
  | arrayConfig (a : SolarArrayConfigurationProps)
  | mppt (m : MpptChargeControllerProps)
  | battery (b : BatteryProps)
  | inverter (i : InverterProps)
deriving DecidableEq, Repr

/-- A component: `id`, user-editable `name`, and the typed properties. -/
structure Component where
  id : Nat
  name : String
  props : ComponentProps
deriving DecidableEq, Repr

/-- A component narrowed to one kind (the result of the source's
`components.filter(c => c.type === ...)` type guards). -/
structure TypedComp (P : Type) where
  id : Nat
  name : String
  props : P
deriving DecidableEq, Repr

/-- Source: `panels = components.filter(c => c.type === 'Individual Solar Panel')`. -/
def panelsOf (cs : List Component) : List (TypedComp IndividualSolarPanelProps) :=
  cs.filterMap fun c =>
    match c.props with
    | .panel p => some ⟨c.id, c.name, p⟩
    | _ => none

/-- Source: `arrays = components.filter(c => c.type === 'Solar Array Configuration')`. -/
def arraysOf (cs : List Component) : List (TypedComp SolarArrayConfigurationProps) :=
  cs.filterMap fun c =>
    match c.props with
    | .arrayConfig a => some ⟨c.id, c.name, a⟩
    | _ => none

/-- Source: `mppts = components.filter(c => c.type === 'MPPT Charge Controller')`. -/
def mpptsOf (cs : List Component) : List (TypedComp MpptChargeControllerProps) :=
  cs.filterMap fun c =>
    match c.props with
    | .mppt m => some ⟨c.id, c.name, m⟩
    | _ => none

/-- Source: `batteries = components.filter(c => c.type === 'Battery')`. -/
def batteriesOf (cs : List Component) : List (TypedComp BatteryProps) :=
  cs.filterMap fun c =>
    match c.props with
    | .battery b => some ⟨c.id, c.name, b⟩
    | _ => none

/-- Source: `inverters = components.filter(c => c.type === 'Inverter')`. -/
def invertersOf (cs : List Component) : List (TypedComp InverterProps) :=
  cs.filterMap fun c =>
    match c.props with
    | .inverter i => some ⟨c.id, c.name, i⟩
    | _ => none

/-- `SystemInputs` (already numeric in the source). -/
structure SystemInputs where
  peakSunHours : ℚ
  estimatedDailyUsageWh : ℚ
  batteryDoD : ℚ
  inverterEfficiency : ℚ
  solarPanelEfficiency : ℚ
  systemWideVoltage : ℚ
deriving DecidableEq, Repr

/-- Source: `defaultSystemInputs`. -/
def defaultSystemInputs : SystemInputs :=
  { peakSunHours := 4
    estimatedDailyUsageWh := 0
    batteryDoD := 80
    inverterEfficiency := 90
    solarPanelEfficiency := 85
    systemWideVoltage := 48 }

/-- The documented ranges of the global assumptions (spec §3): the host's
input controls clamp the values to these ranges. -/
def ValidSystemInputs (si : SystemInputs) : Prop :=
  0 ≤ si.peakSunHours ∧ 0 ≤ si.estimatedDailyUsageWh ∧
  1 ≤ si.batteryDoD ∧ si.batteryDoD ≤ 100 ∧
  1 ≤ si.inverterEfficiency ∧ si.inverterEfficiency ≤ 100 ∧
  1 ≤ si.solarPanelEfficiency ∧ si.solarPanelEfficiency ≤ 100 ∧
  12 ≤ si.systemWideVoltage

instance (si : SystemInputs) : Decidable (ValidSystemInputs si) := by
  unfold ValidSystemInputs; infer_instance

/-- Source: safety margin constants. -/
def VOC_SAFETY_MARGIN_FACTOR_MIN : ℚ := 1.10

/-- Source: ideal 20% headroom factor. -/
def VOC_SAFETY_MARGIN_FACTOR_IDEAL : ℚ := 1.20

/-- JS `x.toFixed(dp)`: decimal rendering with `dp` digits, rounding to the
nearest multiple of `10^(-dp)` and picking the larger value on ties. -/
def qToFixed (dp : Nat) (q : ℚ) : String :=
  let scaled : ℤ := Rat.floor (q * (10 : ℚ) ^ dp + 1 / 2)
  if dp = 0 then toString scaled
  else
    let s := scaled.natAbs
    let ip := s / 10 ^ dp
    let fracDigits := Nat.toDigits 10 (s % 10 ^ dp)
    let pad := String.mk (List.replicate (dp - fracDigits.length) '0')
    (if scaled < 0 then "-" else "") ++ toString ip ++ "." ++ pad ++ String.mk fracDigits

/-- Plain JS template interpolation of a number (`${x}`), modelled as an
injective rendering of the rational (integers render as in JS; no claim
inspects the characters of a non-integer rendering). -/
def qToString (q : ℚ) : String :=
  if q.den = 1 then toString q.num else toString q.num ++ "/" ++ toString q.den

/-- Source: `panels.find(p => p.id === Number(arr.properties.selectedPanelId))`. -/
def findPanel (ps : List (TypedComp IndividualSolarPanelProps)) :
    Option Nat → Option (TypedComp IndividualSolarPanelProps)
  | none => none
  | some n => ps.find? fun p => p.id == n

/-- The contribution of one array configuration to `totalSolarPower`
(source lines 258–267): `pmax * panelsInSeries * numberOfStrings` when the
panel resolves and all three values parse, otherwise 0. -/
def arrayPowerContribution (ps : List (TypedComp IndividualSolarPanelProps))
    (a : TypedComp SolarArrayConfigurationProps) : ℚ :=
  match findPanel ps a.props.selectedPanelId with
  | none => 0
  | some p =>
    match p.props.pmax, a.props.panelsInSeries, a.props.numberOfStrings with
    | some pm, some s, some st => pm * s * st
    | _, _, _ => 0

/-- `totalSolarPower`: sum of the array contributions. -/
def totalSolarPower (cs : List Component) : ℚ :=
  ((arraysOf cs).map (arrayPowerContribution (panelsOf cs))).sum

/-- `totalBatteryCapacity`: Σ `capacityAh` (a `NaN` parse contributes 0). -/
def totalBatteryCapacity (cs : List Component) : ℚ :=
  ((batteriesOf cs).map fun b => (b.props.capacityAh).getD 0).sum

/-- JS `Set` insertion (first occurrence kept, insertion order preserved). -/
def insertUnique (l : List ℚ) (v : ℚ) : List ℚ :=
  if v ∈ l then l else l ++ [v]

/-- The `batteryVoltages` set, as its insertion-ordered element list. -/
def batteryVoltagesList (cs : List Component) : List ℚ :=
  (batteriesOf cs).foldl
    (fun l b => match b.props.nominalVoltage with
      | some v => insertUnique l v
      | none => l) []

/-- `totalInverterPower`: Σ `ratedPower`. -/
def totalInverterPower (cs : List Component) : ℚ :=
  ((invertersOf cs).map fun i => (i.props.ratedPower).getD 0).sum

/-- Source lines 381–384: Σ `maxOutputCurrent` over all controllers
(`isNaN` parses contribute 0), independent of assignment. -/
def totalMpptOutputCurrent (cs : List Component) : ℚ :=
  ((mpptsOf cs).map fun m => (m.props.maxOutputCurrent).getD 0).sum

/-- `energyNeededAdjustedWh` (source line 292). -/
def energyNeededAdjustedWh (si : SystemInputs) : ℚ :=
  if si.estimatedDailyUsageWh > 0 then
    si.estimatedDailyUsageWh / (si.inverterEfficiency / 100)
  else 0

/-- `estimatedDailySolarProductionWh` (source line 290). -/
def estimatedDailySolarProductionWh (cs : List Component) (si : SystemInputs) : ℚ :=
  totalSolarPower cs * si.peakSunHours * (si.solarPanelEfficiency / 100)

/-- `totalBatteryEnergyWh` (source lines 288–289; the `isFinite` clamp is
vacuous over `ℚ`). -/
def totalBatteryEnergyWh (cs : List Component) (si : SystemInputs) : ℚ :=
  totalBatteryCapacity cs * si.systemWideVoltage

/-- `usableBatteryEnergyWh` (source line 291). -/
def usableBatteryEnergyWh (cs : List Component) (si : SystemInputs) : ℚ :=
  totalBatteryEnergyWh cs si * (si.batteryDoD / 100)

/-- `estimatedBatteryAutonomyDays` (source lines 294–296). -/
def estimatedBatteryAutonomyDays (cs : List Component) (si : SystemInputs) : ℚ :=
  if usableBatteryEnergyWh cs si > 0 ∧ energyNeededAdjustedWh si > 0 then
    usableBatteryEnergyWh cs si / energyNeededAdjustedWh si
  else 0

/-- `rechargeTimeEffectiveSunHours` (source lines 300–307). -/
def rechargeTimeEffectiveSunHours (cs : List Component) (si : SystemInputs) : ℚ :=
  if totalSolarPower cs > 0 ∧ usableBatteryEnergyWh cs si > 0 then
    (totalBatteryEnergyWh cs si * (si.batteryDoD / 100)) /
      (totalSolarPower cs * (si.solarPanelEfficiency / 100))
  else 0

/-- `rechargeTimePshDays` (source lines 300–307). -/
def rechargeTimePshDays (cs : List Component) (si : SystemInputs) : ℚ :=
  if totalSolarPower cs > 0 ∧ usableBatteryEnergyWh cs si > 0 then
    if si.peakSunHours > 0 then rechargeTimeEffectiveSunHours cs si / si.peakSunHours
    else 0
  else 0

/-- `productionToConsumptionRatioPercentage` (source lines 309–314);
`none` models the `'N/A'` sentinel. -/
def productionToConsumptionRatio (cs : List Component) (si : SystemInputs) : Option ℚ :=
  if energyNeededAdjustedWh si > 0 then
    some (estimatedDailySolarProductionWh cs si / energyNeededAdjustedWh si * 100)
  else if estimatedDailySolarProductionWh cs si > 0 then none
  else some 0

/-- `panelInterconnectCables` (source lines 335–341). -/
def panelInterconnectCables (cs : List Component) : ℚ :=
  ((arraysOf cs).map fun a =>
    match a.props.panelsInSeries, a.props.numberOfStrings with
    | some s, some st => if s < 2 ∨ st < 1 then 0 else (s - 1) * st
    | _, _ => 0).sum

/-- `arrayToChargerCables` (source lines 342–347). -/
def arrayToChargerCables (cs : List Component) : ℚ :=
  ((arraysOf cs).map fun a =>
    match a.props.numberOfStrings with
    | some st => if st < 1 then 0 else 2 * st
    | none => 0).sum

/-- The `ComputedStats` record of the source. -/
structure Stats where
  totalSolarPower : ℚ
  estimatedDailySolarProductionWh : ℚ
  totalBatteryCapacity : ℚ
  totalBatteryEnergyWh : ℚ
  totalInverterPower : ℚ
  systemNominalVoltage : Option ℚ
  voltageConsistencyIssue : Bool
  estimatedBatteryAutonomyDays : ℚ
  dailyEnergyBalanceWh : ℚ
  rechargeTimePshDays : ℚ
  rechargeTimeEffectiveSunHours : ℚ
  productionToConsumptionRatioPercentage : Option ℚ
  panelInterconnectCables : ℚ
  arrayToChargerCables : ℚ
  chargerToBatteryCables : ℚ
  batteryInterconnectCables : ℚ
  batteryToInverterCables : ℚ
  totalEstimatedCables : ℚ
deriving DecidableEq, Repr

/-- The Statistics Aggregator (source lines 251–353).  `systemNominalVoltage`
is `none` for the `'N/A'` sentinel; `totalEstimatedCables` is the source's
temporary placeholder 0, replaced by `statsWithCableTotal`. -/
def stats (cs : List Component) (si : SystemInputs) : Stats :=
  { totalSolarPower := totalSolarPower cs
    estimatedDailySolarProductionWh := estimatedDailySolarProductionWh cs si
    totalBatteryCapacity := totalBatteryCapacity cs
    totalBatteryEnergyWh := totalBatteryEnergyWh cs si
    totalInverterPower := totalInverterPower cs
    systemNominalVoltage := (batteryVoltagesList cs).head?
    voltageConsistencyIssue := decide ((batteryVoltagesList cs).length > 1)
    estimatedBatteryAutonomyDays := estimatedBatteryAutonomyDays cs si
    dailyEnergyBalanceWh := estimatedDailySolarProductionWh cs si - energyNeededAdjustedWh si
    rechargeTimePshDays := rechargeTimePshDays cs si
    rechargeTimeEffectiveSunHours := rechargeTimeEffectiveSunHours cs si
    productionToConsumptionRatioPercentage := productionToConsumptionRatio cs si
    panelInterconnectCables := panelInterconnectCables cs
    arrayToChargerCables := arrayToChargerCables cs
    chargerToBatteryCables := ((mpptsOf cs).length : ℚ) * 2
    batteryInterconnectCables :=
      if (batteriesOf cs).length > 1 then (((batteriesOf cs).length - 1 : ℕ) : ℚ) * 2 else 0
    batteryToInverterCables := ((invertersOf cs).length : ℚ) * 2
    totalEstimatedCables := 0 }

/-- `statsWithCableTotal` (source lines 356–361). -/
def statsWithCableTotal (cs : List Component) (si : SystemInputs) : Stats :=
  let s := stats cs si
  { s with totalEstimatedCables :=
      s.panelInterconnectCables + s.arrayToChargerCables + s.chargerToBatteryCables +
        s.batteryInterconnectCables + s.batteryToInverterCables }

/-- Fixed text of the mixed-battery-voltage error (source line 371). -/
def mixedVoltageText : String := "Mixed battery voltages detected – unify bank voltage."

/-- The complete mixed-voltage error message as pushed by `add`. -/
def mixedVoltageMsg : CategorizedMessage := mkMsg .error mixedVoltageText

/-- Source line 374: `arrays.filter(a => !a.properties.assignedMpptId)` —
only an empty (falsy) reference counts as unassigned. -/
def unassignedArraysOf (cs : List Component) : List (TypedComp SolarArrayConfigurationProps) :=
  (arraysOf cs).filter fun a => a.props.assignedMpptId.isNone

/-- Source line 392: `arrays.filter(a => a.properties.assignedMpptId === String(mppt.id))`. -/
def assignedArraysOf (cs : List Component) (mpptId : Nat) :
    List (TypedComp SolarArrayConfigurationProps) :=
  (arraysOf cs).filter fun a => a.props.assignedMpptId == some mpptId

/-- Rule 1 (source line 370): empty-system nudge. -/
def emptyNudgeMessages (cs : List Component) : List CategorizedMessage :=
  if cs.length = 0 then [mkMsg .info "Add components to start tracking your solar setup!"]
  else []

/-- Rule 2 (source line 371): mixed battery voltages. -/
def mixedVoltageMessages (cs : List Component) (si : SystemInputs) : List CategorizedMessage :=
  if (stats cs si).voltageConsistencyIssue then [mixedVoltageMsg] else []

/-- Rule 3 (source lines 373–378): unassigned array diagnostics. -/
def unassignedArrayMessages (cs : List Component) : List CategorizedMessage :=
  if (unassignedArraysOf cs).length > 0 then
    if (mpptsOf cs).length > 0 then
      [mkMsg .warn (toString (unassignedArraysOf cs).length ++
        " solar array(s) not assigned to any MPPT.")]
    else
      [mkMsg .info (toString (unassignedArraysOf cs).length ++
        " solar array(s) present but no MPPT controllers added; their power path is undefined.")]
  else []

/-- Rule 4b (source lines 396–416): per-assigned-array Voc headroom check. -/
def vocMarginMessages (ps : List (TypedComp IndividualSolarPanelProps))
    (mp : TypedComp MpptChargeControllerProps)
    (a : TypedComp SolarArrayConfigurationProps) : List CategorizedMessage :=
  match findPanel ps a.props.selectedPanelId with
  | none => []
  | some p =>
    match p.props.voc, a.props.panelsInSeries, mp.props.maxInputVoltage with
    | some voc, some s, some maxV =>
      let arrayVoc := voc * s
      if arrayVoc > maxV then
        [mkMsg .error (a.name ++ " Voc (" ++ qToFixed 1 arrayVoc ++ "V) exceeds " ++
          mp.name ++ " max input voltage (" ++ qToString maxV ++ "V).")]
      else if arrayVoc * VOC_SAFETY_MARGIN_FACTOR_MIN > maxV then
        [mkMsg .warnSafety (a.name ++
          " Voc headroom below minimum recommended 10% margin relative to " ++ mp.name ++
          " (" ++ qToFixed 1 arrayVoc ++ "V vs " ++ qToString maxV ++ "V).")]
      else if arrayVoc * VOC_SAFETY_MARGIN_FACTOR_IDEAL > maxV then
        [mkMsg .infoSafety (a.name ++ " Voc margin < ideal 20% but >= minimum 10% (Voc " ++
          qToFixed 1 arrayVoc ++ "V, MPPT max " ++ qToString maxV ++ "V).")]
      else []
    | _, _, _ => []

/-- Rule 4c aggregate: `aggregateIsc += isc * strings` over assigned,
resolved arrays (source lines 394–404). -/
def aggregateIscOf (ps : List (TypedComp IndividualSolarPanelProps))
    (assigned : List (TypedComp SolarArrayConfigurationProps)) : ℚ :=
  (assigned.map fun a =>
    match findPanel ps a.props.selectedPanelId with
    | none => 0
    | some p =>
      match p.props.isc, a.props.numberOfStrings with
      | some isc0, some st => isc0 * st
      | _, _ => 0).sum

/-- Rule 4d aggregate: `aggregatePmax += pmax * inSeries * strings` (source
lines 394–405). -/
def aggregatePmaxOf (ps : List (TypedComp IndividualSolarPanelProps))
    (assigned : List (TypedComp SolarArrayConfigurationProps)) : ℚ :=
  (assigned.map fun a =>
    match findPanel ps a.props.selectedPanelId with
    | none => 0
    | some p =>
      match p.props.pmax, a.props.panelsInSeries, a.props.numberOfStrings with
      | some pm, some s, some st => pm * s * st
      | _, _, _ => 0).sum

/-- Rule 4 (source lines 387–428): per-MPPT checks in source order —
no-assigned-arrays warning, per-array Voc margins, aggregate Isc versus max
input current, aggregate Pmax versus estimated output capacity. -/
def mpptMessages (cs : List Component) (mp : TypedComp MpptChargeControllerProps) :
    List CategorizedMessage :=
  let ps := panelsOf cs
  let assigned := assignedArraysOf cs mp.id
  let noAssigned :=
    if assigned.length = 0 then [mkMsg .warn (mp.name ++ " has no assigned solar arrays.")]
    else []
  let vocMsgs := assigned.flatMap (vocMarginMessages ps mp)
  let aggIsc := aggregateIscOf ps assigned
  let aggPmax := aggregatePmaxOf ps assigned
  let iscMsgs :=
    match mp.props.maxInputCurrent with
    | some maxI =>
      if maxI > 0 then
        if aggIsc > maxI then
          [mkMsg .error (mp.name ++ " total array Isc (" ++ qToFixed 2 aggIsc ++
            "A) exceeds max input current (" ++ qToString maxI ++ "A).")]
        else if aggIsc > maxI * 0.9 then
          [mkMsg .warnSizing (mp.name ++ " total array Isc (" ++ qToFixed 2 aggIsc ++
            "A) >90% of max (" ++ qToString maxI ++ "A).")]
        else []
      else []
    | none => []
  let powerMsgs :=
    match mp.props.maxOutputCurrent, mp.props.nominalBatteryVoltage with
    | some maxOutI, some battV =>
      if maxOutI > 0 ∧ battV > 0 then
        let cap := maxOutI * battV
        if aggPmax > cap * 1.25 then
          [mkMsg .warnSizing (mp.name ++ " array power (" ++ qToFixed 0 aggPmax ++
            "W) >125% of est output capacity (~" ++ qToFixed 0 cap ++
            "W). Significant clipping likely.")]
        else if aggPmax > cap then
          [mkMsg .info (mp.name ++ " slightly over-provisioned (array " ++ qToFixed 0 aggPmax ++
            "W vs ~" ++ qToFixed 0 cap ++ "W). Minor clipping expected.")]
        else []
      else []
    | _, _ => []
  noAssigned ++ vocMsgs ++ iscMsgs ++ powerMsgs

/-- Rule 5 (source lines 431–447): per-battery C-rate checks.  Both the
charge and the discharge check are gated on `capacityAh` parsing positive. -/
def batteryMessages (totalMpptOut totalInvPower : ℚ) (b : TypedComp BatteryProps) :
    List CategorizedMessage :=
  match b.props.capacityAh with
  | some cap =>
    if cap > 0 then
      (match b.props.maxChargeCurrent with
       | some mc =>
         if mc > 0 then
           if totalMpptOut > mc then
             [mkMsg .error (b.name ++ " potential charge current (" ++ qToFixed 1 totalMpptOut ++
               "A) exceeds max charge current (" ++ qToString mc ++ "A).")]
           else if totalMpptOut > mc * 0.9 then
             [mkMsg .warnCRate (b.name ++ " charge current near limit (" ++
               qToFixed 1 totalMpptOut ++ "A / " ++ qToString mc ++ "A).")]
           else []
         else []
       | none => []) ++
      (match b.props.maxDischargeCurrent, b.props.nominalVoltage with
       | some md, some nv =>
         if md > 0 ∧ nv > 0 then
           let est := totalInvPower / nv
           if est > md then
             [mkMsg .error (b.name ++ " estimated discharge current (" ++ qToFixed 1 est ++
               "A) exceeds max discharge current (" ++ qToString md ++ "A).")]
           else if est > md * 0.9 then
             [mkMsg .warnCRate (b.name ++ " discharge current near limit (" ++ qToFixed 1 est ++
               "A / " ++ qToString md ++ "A).")]
           else []
         else []
       | _, _ => [])
    else []
  | none => []

/-- Rule 6 (source lines 450–458): inverter DC input window versus the
system-wide voltage. -/
def inverterMessages (si : SystemInputs) (inv : TypedComp InverterProps) :
    List CategorizedMessage :=
  let sysV := si.systemWideVoltage
  (match inv.props.inputVoltageMin with
   | some vmin =>
     if sysV < vmin then
       [mkMsg .error (inv.name ++ " system voltage (" ++ qToString sysV ++
         "V) below inverter minimum (" ++ qToString vmin ++ "V).")]
     else if sysV < vmin * 1.05 then
       [mkMsg .warnSizing (inv.name ++ " system voltage (" ++ qToString sysV ++
         "V) within 5% of minimum (" ++ qToString vmin ++ "V).")]
     else []
   | none => []) ++
  (match inv.props.inputVoltageMax with
   | some vmax =>
     if sysV > vmax then
       [mkMsg .error (inv.name ++ " system voltage (" ++ qToString sysV ++
         "V) exceeds inverter maximum (" ++ qToString vmax ++ "V).")]
     else if sysV > vmax * 0.95 then
       [mkMsg .warnSizing (inv.name ++ " system voltage (" ++ qToString sysV ++
         "V) within 5% of maximum (" ++ qToString vmax ++ "V).")]
     else []
   | none => [])

/-- Rule 7 (source lines 461–467): production and usage sanity notes. -/
def productionSanityMessages (cs : List Component) (si : SystemInputs) :
    List CategorizedMessage :=
  (if totalSolarPower cs = 0 ∧ (arraysOf cs).length > 0 then
    [mkMsg .warn "Arrays configured but no valid panel pmax values."]
   else []) ++
  (if si.estimatedDailyUsageWh = 0 ∧ cs.length > 0 then
    [mkMsg .warn "Daily usage is 0; production metrics may be misleading."]
   else []) ++
  (if estimatedBatteryAutonomyDays cs si < 0.5 ∧ estimatedBatteryAutonomyDays cs si > 0 then
    [mkMsg .warnSizing "Battery autonomy < 0.5 days; consider more storage or reducing load."]
   else []) ++
  (match productionToConsumptionRatio cs si with
   | some r =>
     if r < 80 then
       [mkMsg .warnSizing "Solar production <80% of adjusted consumption; expect deficit."]
     else if r > 150 then
       [mkMsg .info
         "Solar production >150% of adjusted consumption; consider more storage or curtailment strategy."]
     else []
   | none => [])

/-- Rule 8 (source lines 470–471): the two fixed general notes. -/
def generalNotes : List CategorizedMessage :=
  [mkMsg .info
    "Calculations assume ideal wiring; account for voltage drop, temperature, and conversion losses.",
   mkMsg .infoSafety
    "Always size conductors and protection (fuses/breakers) to NEC/IEC standards and manufacturer specs."]

/-- All messages before the final rollup, in source order. -/
def coreMessages (cs : List Component) (si : SystemInputs) : List CategorizedMessage :=
  emptyNudgeMessages cs ++
  mixedVoltageMessages cs si ++
  unassignedArrayMessages cs ++
  (mpptsOf cs).flatMap (mpptMessages cs) ++
  (batteriesOf cs).flatMap
    (batteryMessages (totalMpptOutputCurrent cs) (stats cs si).totalInverterPower) ++
  (invertersOf cs).flatMap (inverterMessages si) ++
  productionSanityMessages cs si ++
  generalNotes

/-- Rule 9 (source lines 474–480): final rollup summary, gated on a
non-empty component set, reading the messages emitted so far. -/
def rollupMessages (cs : List Component) (core : List CategorizedMessage) :
    List CategorizedMessage :=
  if cs.length > 0 then
    if core.any fun m => decide (m.level = .error) then
      [mkMsg .error "Critical errors found! Resolve red items first; then address warnings."]
    else if core.any fun m => levelIsWarn m.level then
      [mkMsg .warn
        "Warnings present. System may operate but with risk/inefficiency. Review above notes."]
    else [mkMsg .info "System configuration appears compatible based on current checks."]
  else []

/-- The Diagnostics Engine (source lines 366–482). -/
def messages (cs : List Component) (si : SystemInputs) : List CategorizedMessage :=
  coreMessages cs si ++ rollupMessages cs (coreMessages cs si)

/-- Component family for C1: one panel with symbolic `voc`, one array
(`panelsInSeries = 1`, so arrayVoc = voc) assigned to one MPPT with
symbolic `maxInputVoltage`. -/
def claim1Components (v M : ℚ) : List Component :=
  [⟨1, "Individual Solar Panel 1",
     .panel ⟨some v, none, none, none, none, none, none, none⟩⟩,
   ⟨2, "Solar Array Configuration 1",
     .arrayConfig ⟨some 1, some 1, some 1, some 3⟩⟩,
   ⟨3, "MPPT Charge Controller 1",
     .mppt ⟨some M, none, none, none, none⟩⟩]

/-- Component set for C2's counterexample: one array whose `assignedMpptId`
is a non-empty reference (99) matching no MPPT, plus one MPPT with id 1. -/
def claim2Components : List Component :=
  [⟨10, "Solar Array Configuration 1",
     .arrayConfig ⟨none, some 1, some 1, some 99⟩⟩,
   ⟨1, "MPPT Charge Controller 1",
     .mppt ⟨none, none, none, none, none⟩⟩]

/-- Component set for C3's counterexample: a battery whose `capacityAh` does
not parse (`NaN`) but whose `maxChargeCurrent` parses to 10, plus an MPPT
whose `maxOutputCurrent` parses to 20. -/
def claim3Components : List Component :=
  [⟨3, "Battery 1", .battery ⟨none, none, some 10, none, none⟩⟩,
   ⟨4, "MPPT Charge Controller 1", .mppt ⟨none, none, some 20, none, none⟩⟩]

/-- Witness component set for the charge-exceeded branch of C3 (amended):
battery capacity 100, charge limit 10, total MPPT output 20. -/
def claim3ErrComponents : List Component :=
  [⟨3, "Battery 1", .battery ⟨none, some 100, some 10, none, none⟩⟩,
   ⟨4, "MPPT Charge Controller 1", .mppt ⟨none, none, some 20, none, none⟩⟩]

/-- Witness component set for the near-limit branch of C3 (amended):
battery capacity 100, charge limit 20, total MPPT output 19 (95% of limit). -/
def claim3WarnComponents : List Component :=
  [⟨3, "Battery 1", .battery ⟨none, some 100, some 20, none, none⟩⟩,
   ⟨4, "MPPT Charge Controller 1", .mppt ⟨none, none, some 19, none, none⟩⟩]

/-- C4 counterexample, smaller `pmax`: panel `pmax = 1` referenced by an
array with parsed `panelsInSeries = -1`. -/
def claim4SmallComponents : List Component :=
  [⟨1, "Individual Solar Panel 1",
     .panel ⟨none, none, none, none, some 1, none, none, none⟩⟩,
   ⟨2, "Solar Array Configuration 1",
     .arrayConfig ⟨some 1, some (-1), some 1, none⟩⟩]

/-- C4 counterexample, larger `pmax`: identical except `pmax = 2`. -/
def claim4LargeComponents : List Component :=
  [⟨1, "Individual Solar Panel 1",
     .panel ⟨none, none, none, none, some 2, none, none, none⟩⟩,
   ⟨2, "Solar Array Configuration 1",
     .arrayConfig ⟨some 1, some (-1), some 1, none⟩⟩]

/-- Component set for C10: a panel with fractional `pmax` and an array with
fractional `panelsInSeries`/`numberOfStrings`. -/
def claim10Components : List Component :=
  [⟨1, "Individual Solar Panel 1",
     .panel ⟨none, none, none, none, some (5/2), none, none, none⟩⟩,
   ⟨2, "Solar Array Configuration 1",
     .arrayConfig ⟨some 1, some (5/2), some (5/4), none⟩⟩]

/-- Component set for C10 with a negative parsed `panelsInSeries`. -/
def claim10NegComponents : List Component :=
  [⟨1, "Individual Solar Panel 1",
     .panel ⟨none, none, none, none, some (5/2), none, none, none⟩⟩,
   ⟨2, "Solar Array Configuration 1",
     .arrayConfig ⟨some 1, some (-1), some (5/4), none⟩⟩]

@[simp] theorem mkMsg_level (l : MessageLevel) (b : String) : (mkMsg l b).level = l := rfl

@[simp] theorem mkMsg_text (l : MessageLevel) (b : String) :
    (mkMsg l b).text = levelPrefixMap l ++ " " ++ b := rfl

@[simp] theorem stats_totalSolarPower (cs : List Component) (si : SystemInputs) :
    (stats cs si).totalSolarPower = totalSolarPower cs := rfl

@[simp] theorem stats_dailyProduction (cs : List Component) (si : SystemInputs) :
    (stats cs si).estimatedDailySolarProductionWh = estimatedDailySolarProductionWh cs si := rfl

@[simp] theorem stats_totalInverterPower (cs : List Component) (si : SystemInputs) :
    (stats cs si).totalInverterPower = totalInverterPower cs := rfl

@[simp] theorem stats_autonomy (cs : List Component) (si : SystemInputs) :
    (stats cs si).estimatedBatteryAutonomyDays = estimatedBatteryAutonomyDays cs si := rfl

@[simp] theorem stats_ratio (cs : List Component) (si : SystemInputs) :
    (stats cs si).productionToConsumptionRatioPercentage = productionToConsumptionRatio cs si := rfl

@[simp] theorem stats_nominalVoltage (cs : List Component) (si : SystemInputs) :
    (stats cs si).systemNominalVoltage = (batteryVoltagesList cs).head? := rfl

@[simp] theorem stats_voltageIssue (cs : List Component) (si : SystemInputs) :
    (stats cs si).voltageConsistencyIssue = decide ((batteryVoltagesList cs).length > 1) := rfl

/-- Concrete empty-system check used to settle claim C6: with no components,
the engine emits four messages, not three. -/
theorem claim6_counterexample :
    (messages [] defaultSystemInputs).length = 4 ∧
    messages [] defaultSystemInputs ≠
      [mkMsg .info "Add components to start tracking your solar setup!",
       mkMsg .info
         "Calculations assume ideal wiring; account for voltage drop, temperature, and conversion losses.",
       mkMsg .infoSafety
         "Always size conductors and protection (fuses/breakers) to NEC/IEC standards and manufacturer specs."] := by
  with_unfolding_all decide

/-- C6 (amended): when the component set is empty, the diagnostics output is
exactly four messages — the 'add components' info nudge, the 'Solar
production <80%' warn-sizing (the production/consumption ratio evaluates to
the number 0, which is below 80), the fixed info disclaimer about idealized
wiring, and the fixed info-safety reminder about electrical codes, in that
order, with no rollup summary appended. -/
theorem claim6_empty_system (si : SystemInputs) :
    messages [] si =
      [mkMsg .info "Add components to start tracking your solar setup!",
       mkMsg .warnSizing "Solar production <80% of adjusted consumption; expect deficit.",
       mkMsg .info
         "Calculations assume ideal wiring; account for voltage drop, temperature, and conversion losses.",
       mkMsg .infoSafety
         "Always size conductors and protection (fuses/breakers) to NEC/IEC standards and manufacturer specs."] := by
  norm_num [messages, coreMessages, emptyNudgeMessages, mixedVoltageMessages,
    unassignedArrayMessages, unassignedArraysOf, productionSanityMessages, rollupMessages,
    stats, batteryVoltagesList, batteriesOf, arraysOf, mpptsOf, invertersOf,
    totalSolarPower, totalBatteryCapacity, totalInverterPower, estimatedBatteryAutonomyDays,
    usableBatteryEnergyWh, totalBatteryEnergyWh, productionToConsumptionRatio,
    estimatedDailySolarProductionWh, energyNeededAdjustedWh, generalNotes]

/-- C8: the Statistics Aggregator and the Diagnostics Engine are pure
functions of the component snapshot and the assumptions record: any two
invocations on equal inputs produce identical outputs (same `Stats` record
and same ordered message list). -/
theorem claim8_determinism (cs cs' : List Component) (si si' : SystemInputs)
    (h1 : cs = cs') (h2 : si = si') :
    stats cs si = stats cs' si' ∧
    statsWithCableTotal cs si = statsWithCableTotal cs' si' ∧
    messages cs si = messages cs' si' := by
  subst h1; subst h2; exact ⟨rfl, rfl, rfl⟩

/-- Witness for C8 at a concrete input. -/
theorem claim8_witness :
    stats [] defaultSystemInputs = stats [] defaultSystemInputs ∧
    statsWithCableTotal [] defaultSystemInputs = statsWithCableTotal [] defaultSystemInputs ∧
    messages [] defaultSystemInputs = messages [] defaultSystemInputs :=
  claim8_determinism [] [] defaultSystemInputs defaultSystemInputs rfl rfl

/-- C10: `panelsInSeries` and `numberOfStrings` participate unrounded and
unclamped, so `totalSolarPower`, `panelInterconnectCables` and
`arrayToChargerCables` can be fractional (non-integral denominators), and
`totalSolarPower` can be negative. -/
theorem claim10_unvalidated_counts :
    (stats claim10Components defaultSystemInputs).panelInterconnectCables = 15/8 ∧
    ((stats claim10Components defaultSystemInputs).panelInterconnectCables).den ≠ 1 ∧
    (stats claim10Components defaultSystemInputs).arrayToChargerCables = 5/2 ∧
    ((stats claim10Components defaultSystemInputs).arrayToChargerCables).den ≠ 1 ∧
    (stats claim10Components defaultSystemInputs).totalSolarPower = 125/16 ∧
    ((stats claim10Components defaultSystemInputs).totalSolarPower).den ≠ 1 ∧
    (stats claim10NegComponents defaultSystemInputs).totalSolarPower < 0 := by
  with_unfolding_all decide

/-- The final rollup never emits a 'warn-safety' message (its three possible
summaries are `error`, `warn`, `info`). -/
theorem rollupMessages_no_warnSafety (cs : List Component) (core : List CategorizedMessage) :
    (rollupMessages cs core).all (fun m => !(decide (m.level = MessageLevel.warnSafety))) = true := by
  unfold rollupMessages
  split_ifs <;> simp

/-- The Voc-margin rule on `claim1Components`, written as the explicit
three-way branch on arrayVoc = voc × 1. -/
theorem claim1_vocMargin_eq (v M : ℚ) :
    vocMarginMessages (panelsOf (claim1Components v M))
      ⟨3, "MPPT Charge Controller 1", ⟨some M, none, none, none, none⟩⟩
      ⟨2, "Solar Array Configuration 1", ⟨some 1, some 1, some 1, some 3⟩⟩ =
    (if v * 1 > M then
      [mkMsg .error ("Solar Array Configuration 1" ++ " Voc (" ++ qToFixed 1 (v * 1) ++
        "V) exceeds " ++ "MPPT Charge Controller 1" ++ " max input voltage (" ++
        qToString M ++ "V).")]
     else if v * 1 * VOC_SAFETY_MARGIN_FACTOR_MIN > M then
      [mkMsg .warnSafety ("Solar Array Configuration 1" ++
        " Voc headroom below minimum recommended 10% margin relative to " ++
        "MPPT Charge Controller 1" ++ " (" ++ qToFixed 1 (v * 1) ++ "V vs " ++
        qToString M ++ "V).")]
     else if v * 1 * VOC_SAFETY_MARGIN_FACTOR_IDEAL > M then
      [mkMsg .infoSafety ("Solar Array Configuration 1" ++
        " Voc margin < ideal 20% but >= minimum 10% (Voc " ++ qToFixed 1 (v * 1) ++
        "V, MPPT max " ++ qToString M ++ "V).")]
     else []) := by
  simp only [vocMarginMessages, findPanel, claim1Components, panelsOf]
  rfl

/-- The full pre-rollup message list of `claim1Components` under the default
system inputs: the Voc-margin branch followed by the fixed sanity notes. -/
theorem claim1_core_eq (v M : ℚ) :
    coreMessages (claim1Components v M) defaultSystemInputs =
      vocMarginMessages (panelsOf (claim1Components v M))
        ⟨3, "MPPT Charge Controller 1", ⟨some M, none, none, none, none⟩⟩
        ⟨2, "Solar Array Configuration 1", ⟨some 1, some 1, some 1, some 3⟩⟩ ++
      [mkMsg .warn "Arrays configured but no valid panel pmax values.",
       mkMsg .warn "Daily usage is 0; production metrics may be misleading.",
       mkMsg .warnSizing "Solar production <80% of adjusted consumption; expect deficit.",
       mkMsg .info
         "Calculations assume ideal wiring; account for voltage drop, temperature, and conversion losses.",
       mkMsg .infoSafety
         "Always size conductors and protection (fuses/breakers) to NEC/IEC standards and manufacturer specs."] := by
  have h1 : emptyNudgeMessages (claim1Components v M) = [] := rfl
  have h2 : mixedVoltageMessages (claim1Components v M) defaultSystemInputs = [] := rfl
  have h3 : unassignedArrayMessages (claim1Components v M) = [] := rfl
  have h5 : (batteriesOf (claim1Components v M)).flatMap
      (batteryMessages (totalMpptOutputCurrent (claim1Components v M))
        (stats (claim1Components v M) defaultSystemInputs).totalInverterPower) = [] := rfl
  have h6 : (invertersOf (claim1Components v M)).flatMap
      (inverterMessages defaultSystemInputs) = [] := rfl
  have h4 : (mpptsOf (claim1Components v M)).flatMap
      (mpptMessages (claim1Components v M)) =
      vocMarginMessages (panelsOf (claim1Components v M))
        ⟨3, "MPPT Charge Controller 1", ⟨some M, none, none, none, none⟩⟩
        ⟨2, "Solar Array Configuration 1", ⟨some 1, some 1, some 1, some 3⟩⟩ := by
    simp [mpptMessages, assignedArraysOf, mpptsOf, arraysOf, claim1Components]
  have h0 : totalSolarPower (claim1Components v M) = 0 := by with_unfolding_all rfl
  have hr : productionToConsumptionRatio (claim1Components v M) defaultSystemInputs = some 0 := by
    norm_num [productionToConsumptionRatio, estimatedDailySolarProductionWh, h0,
      energyNeededAdjustedWh, defaultSystemInputs]
  have ha : estimatedBatteryAutonomyDays (claim1Components v M) defaultSystemInputs = 0 := by
    norm_num [estimatedBatteryAutonomyDays, usableBatteryEnergyWh, totalBatteryEnergyWh,
      totalBatteryCapacity, batteriesOf, claim1Components, energyNeededAdjustedWh,
      defaultSystemInputs]
  have h7 : productionSanityMessages (claim1Components v M) defaultSystemInputs =
      [mkMsg .warn "Arrays configured but no valid panel pmax values.",
       mkMsg .warn "Daily usage is 0; production metrics may be misleading.",
       mkMsg .warnSizing "Solar production <80% of adjusted consumption; expect deficit."] := by
    have harr : (arraysOf (claim1Components v M)).length = 1 := rfl
    have hlen : (claim1Components v M).length = 3 := rfl
    have hu : defaultSystemInputs.estimatedDailyUsageWh = 0 := rfl
    norm_num [productionSanityMessages, h0, hr, ha, harr, hlen, hu]
  rw [coreMessages, h1, h2, h3, h4, h5, h6, h7]
  simp [generalNotes]

/-- C1 counterexample: with `maxInputVoltage = 100`, a string Voc of
`111 = 100 × 1.10 + 1` (one unit above `maxInputVoltage × 1.10`) produces
NO 'warn-safety' message — it produces the absolute-limit `error` instead —
refuting the claim's second half. -/
theorem claim1_counterexample :
    (111 : ℚ) = 100 * VOC_SAFETY_MARGIN_FACTOR_MIN + 1 ∧
    ((messages (claim1Components 111 100) defaultSystemInputs).all fun m =>
      !(decide (m.level = MessageLevel.warnSafety))) = true ∧
    ((messages (claim1Components 111 100) defaultSystemInputs).any fun m =>
      decide (m.level = MessageLevel.error)) = true := by
  with_unfolding_all decide

/-- C1 (amended): for the MPPT-assigned array of `claim1Components`,
resolved to a valid panel with arrayVoc = voc × 1: a Voc with
`arrayVoc × 1.10` at or below `maxInputVoltage` does not cause a
'warn-safety' message (the comparison `arrayVoc × 1.10 > maxInputVoltage`
is strict), and a Voc with `arrayVoc × 1.10` above `maxInputVoltage` —
while `arrayVoc` itself is still at most `maxInputVoltage` — does cause the
'warn-safety' message.  (A Voc at `maxInputVoltage × 1.10` itself exceeds
the absolute limit and triggers the `error`, not 'warn-safety'.) -/
theorem claim1_threshold_amended (v M : ℚ) :
    (v * VOC_SAFETY_MARGIN_FACTOR_MIN ≤ M →
      ((messages (claim1Components v M) defaultSystemInputs).all fun m =>
        !(decide (m.level = MessageLevel.warnSafety))) = true) ∧
    (M < v * VOC_SAFETY_MARGIN_FACTOR_MIN → v ≤ M →
      ((messages (claim1Components v M) defaultSystemInputs).any fun m =>
        decide (m.level = MessageLevel.warnSafety)) = true) := by
  constructor
  · intro h
    rw [messages, List.all_append, claim1_core_eq, List.all_append, claim1_vocMargin_eq]
    simp only [Bool.and_eq_true]
    refine ⟨⟨?_, by decide⟩, rollupMessages_no_warnSafety _ _⟩
    split_ifs with hgt hws
    · simp
    · rw [mul_one] at hws; exact absurd hws (not_lt.2 h)
    · simp
    · simp
  · intro h1 h2
    rw [messages, List.any_append, claim1_core_eq, List.any_append, claim1_vocMargin_eq]
    have hngt : ¬ v * 1 > M := by rw [mul_one]; exact not_lt.2 h2
    have hws : v * 1 * VOC_SAFETY_MARGIN_FACTOR_MIN > M := by rw [mul_one]; exact h1
    rw [if_neg hngt, if_pos hws]
    simp

/-- Witness for C1 (amended): Voc 100 against limit 110 (exactly 10%
headroom) yields no 'warn-safety'; Voc 101 against limit 110 yields one. -/
theorem claim1_witness :
    ((messages (claim1Components 100 110) defaultSystemInputs).all fun m =>
      !(decide (m.level = MessageLevel.warnSafety))) = true ∧
    ((messages (claim1Components 101 110) defaultSystemInputs).any fun m =>
      decide (m.level = MessageLevel.warnSafety)) = true :=
  ⟨(claim1_threshold_amended 100 110).1 (by with_unfolding_all decide),
   (claim1_threshold_amended 101 110).2 (by with_unfolding_all decide)
     (by with_unfolding_all decide)⟩

/-- C2 counterexample: an array whose `assignedMpptId` is the non-empty
dangling reference 99 (no MPPT has id 99, and one MPPT exists) is NOT
counted among the rule-3 unassigned arrays, and the rule-3 'warn' the claim
requires never appears in the output. -/
theorem claim2_counterexample :
    (arraysOf claim2Components).length = 1 ∧
    (∀ a ∈ arraysOf claim2Components, a.props.assignedMpptId = some 99) ∧
    (∀ mp ∈ mpptsOf claim2Components, mp.id ≠ 99) ∧
    (mpptsOf claim2Components).length = 1 ∧
    (unassignedArraysOf claim2Components).length = 0 ∧
    (∀ m ∈ messages claim2Components defaultSystemInputs,
      m.text ≠ "Warning: 1 solar array(s) not assigned to any MPPT.") := by
  with_unfolding_all decide

/-- C2 (amended): an `ArrayConfig` whose `assignedMpptId` is non-empty but
matches no existing MPPT's id is NOT counted among the unassigned arrays of
the rule-3 diagnostic (only an empty reference counts), and it is silently
excluded from every MPPT's assigned-array set; evaluation never fails (the
engine is total). -/
theorem claim2_dangling_amended (cs : List Component)
    (a : TypedComp SolarArrayConfigurationProps) (k : Nat)
    (ha : a ∈ arraysOf cs) (hk : a.props.assignedMpptId = some k)
    (hno : ∀ mp ∈ mpptsOf cs, mp.id ≠ k) :
    a ∉ unassignedArraysOf cs ∧ ∀ mp ∈ mpptsOf cs, a ∉ assignedArraysOf cs mp.id := by
  constructor
  · intro hmem
    rw [unassignedArraysOf, List.mem_filter] at hmem
    rw [hk] at hmem
    simp at hmem
  · intro mp hmp hmem
    rw [assignedArraysOf, List.mem_filter] at hmem
    rw [hk] at hmem
    have : k = mp.id := by simpa using hmem.2
    exact hno mp hmp this.symm

/-- Witness for C2 (amended) at the concrete `claim2Components`. -/
theorem claim2_witness :
    (⟨10, "Solar Array Configuration 1",
       (⟨none, some 1, some 1, some 99⟩ : SolarArrayConfigurationProps)⟩ :
      TypedComp SolarArrayConfigurationProps) ∉ unassignedArraysOf claim2Components ∧
    ∀ mp ∈ mpptsOf claim2Components,
      (⟨10, "Solar Array Configuration 1",
         (⟨none, some 1, some 1, some 99⟩ : SolarArrayConfigurationProps)⟩ :
        TypedComp SolarArrayConfigurationProps) ∉ assignedArraysOf claim2Components mp.id :=
  claim2_dangling_amended claim2Components _ 99 (by with_unfolding_all decide) rfl
    (by with_unfolding_all decide)

/-- C3 counterexample: a battery whose `maxChargeCurrent` parses to the
positive value 10 while the total MPPT output current is 20 — but whose
`capacityAh` does not parse — receives NO `error` message at all: the
C-rate rule is additionally gated on `capacityAh` parsing positive. -/
theorem claim3_counterexample :
    totalMpptOutputCurrent claim3Components = 20 ∧
    (∀ b ∈ batteriesOf claim3Components, b.props.maxChargeCurrent = some 10) ∧
    ((20 : ℚ) > 10) ∧
    ((messages claim3Components defaultSystemInputs).all fun m =>
      !(decide (m.level = MessageLevel.error))) = true := by
  with_unfolding_all decide

/-- C3 (amended): for every battery whose `capacityAh` AND `maxChargeCurrent`
both parse to positive numbers, a total MPPT output current above
`maxChargeCurrent` puts the battery's charge-current `error` in the output,
and a total output current within (90%, 100%] of the limit puts the
battery's 'warn-c-rate' message in the output. -/
theorem claim3_charge_amended (cs : List Component) (si : SystemInputs)
    (b : TypedComp BatteryProps) (cap mc : ℚ)
    (hb : b ∈ batteriesOf cs) (hcap : b.props.capacityAh = some cap) (hcap0 : 0 < cap)
    (hmc : b.props.maxChargeCurrent = some mc) (hmc0 : 0 < mc) :
    (totalMpptOutputCurrent cs > mc →
      mkMsg .error (b.name ++ " potential charge current (" ++
        qToFixed 1 (totalMpptOutputCurrent cs) ++ "A) exceeds max charge current (" ++
        qToString mc ++ "A).") ∈ messages cs si) ∧
    (totalMpptOutputCurrent cs > mc * 0.9 → totalMpptOutputCurrent cs ≤ mc →
      mkMsg .warnCRate (b.name ++ " charge current near limit (" ++
        qToFixed 1 (totalMpptOutputCurrent cs) ++ "A / " ++ qToString mc ++ "A).") ∈
        messages cs si) := by
  have seg :
      ∀ msg, msg ∈ batteryMessages (totalMpptOutputCurrent cs)
          (stats cs si).totalInverterPower b →
        msg ∈ messages cs si := by
    intro msg hmsg
    have hcore : msg ∈ coreMessages cs si := by
      have : msg ∈ (batteriesOf cs).flatMap
          (batteryMessages (totalMpptOutputCurrent cs) (stats cs si).totalInverterPower) :=
        List.mem_flatMap.2 ⟨b, hb, hmsg⟩
      unfold coreMessages
      simp only [List.mem_append]
      tauto
    unfold messages
    exact List.mem_append_left _ hcore
  constructor
  · intro hgt
    apply seg
    unfold batteryMessages
    rw [hcap, hmc]
    simp only [if_pos hcap0, if_pos hmc0, if_pos hgt]
    exact List.mem_append_left _ (by simp)
  · intro hgt hle
    apply seg
    unfold batteryMessages
    rw [hcap, hmc]
    have hngt : ¬ totalMpptOutputCurrent cs > mc := not_lt.2 hle
    simp only [if_pos hcap0, if_pos hmc0, if_neg hngt, if_pos hgt]
    exact List.mem_append_left _ (by simp)

/-- Witness for C3 (amended): both branches at concrete component sets. -/
theorem claim3_witness :
    mkMsg .error
      "Battery 1 potential charge current (20.0A) exceeds max charge current (10A)." ∈
      messages claim3ErrComponents defaultSystemInputs ∧
    mkMsg .warnCRate "Battery 1 charge current near limit (19.0A / 20A)." ∈
      messages claim3WarnComponents defaultSystemInputs := by
  constructor
  · have h := (claim3_charge_amended claim3ErrComponents defaultSystemInputs
      ⟨3, "Battery 1", ⟨none, some 100, some 10, none, none⟩⟩ 100 10
      (by with_unfolding_all decide) rfl (by norm_num) rfl (by norm_num)).1
      (by with_unfolding_all decide)
    with_unfolding_all exact h
  · have h := (claim3_charge_amended claim3WarnComponents defaultSystemInputs
      ⟨3, "Battery 1", ⟨none, some 100, some 20, none, none⟩⟩ 100 20
      (by with_unfolding_all decide) rfl (by norm_num) rfl (by norm_num)).2
      (by with_unfolding_all decide) (by with_unfolding_all decide)
    with_unfolding_all exact h

/-- Per-array monotonicity of the power contribution in a single panel's
`pmax`, provided that array's parsed series × strings product is
nonnegative. -/
theorem arrayPowerContribution_pmax_mono (l1 l2 : List (TypedComp IndividualSolarPanelProps))
    (pid : Nat) (pn : String) (pp : IndividualSolarPanelProps) (v w : ℚ)
    (hpmax : pp.pmax = some v) (hvw : v ≤ w)
    (a : TypedComp SolarArrayConfigurationProps)
    (hnn : 0 ≤ (a.props.panelsInSeries.getD 0) * (a.props.numberOfStrings.getD 0)) :
    arrayPowerContribution (l1 ++ ⟨pid, pn, pp⟩ :: l2) a ≤
      arrayPowerContribution (l1 ++ ⟨pid, pn, { pp with pmax := some w }⟩ :: l2) a := by
  unfold arrayPowerContribution
  cases hsel : a.props.selectedPanelId with
  | none => simp [findPanel]
  | some n =>
    simp only [findPanel, List.find?_append]
    cases hf : l1.find? (fun p => p.id == n) with
    | some x => simp
    | none =>
      simp only [Option.none_or]
      by_cases hid : pid = n
      · rw [List.find?_cons_of_pos _ (by simpa using hid),
          List.find?_cons_of_pos _ (by simpa using hid)]
        simp only [hpmax]
        cases hs : a.props.panelsInSeries with
        | none => simp
        | some s =>
          cases hst : a.props.numberOfStrings with
          | none => simp
          | some st =>
            rw [hs, hst] at hnn
            simp only [Option.getD_some] at hnn
            calc v * s * st = v * (s * st) := by ring
              _ ≤ w * (s * st) := mul_le_mul_of_nonneg_right hvw hnn
              _ = w * s * st := by ring
      · rw [List.find?_cons_of_neg _ (by simpa using hid),
          List.find?_cons_of_neg _ (by simpa using hid)]

/-- C4 counterexample: raising the single panel's parsed `pmax` from 1 to 2
while an array referencing it has parsed `panelsInSeries = -1` strictly
DECREASES both `totalSolarPower` and `estimatedDailySolarProductionWh`,
refuting the unconditional monotonicity claim. -/
theorem claim4_counterexample :
    (stats claim4LargeComponents defaultSystemInputs).totalSolarPower <
      (stats claim4SmallComponents defaultSystemInputs).totalSolarPower ∧
    (stats claim4LargeComponents defaultSystemInputs).estimatedDailySolarProductionWh <
      (stats claim4SmallComponents defaultSystemInputs).estimatedDailySolarProductionWh := by
  with_unfolding_all decide

/-- C4 (amended): for system inputs within their documented ranges and a
component set in which every array configuration's parsed
`panelsInSeries × numberOfStrings` product is nonnegative, increasing a
single panel's parsed `pmax` (all else fixed) never decreases
`totalSolarPower` or `estimatedDailySolarProductionWh`. -/
theorem claim4_monotone_amended (pre post : List Component) (pid : Nat) (pname : String)
    (pp : IndividualSolarPanelProps) (v w : ℚ) (si : SystemInputs)
    (hvalid : ValidSystemInputs si)
    (hpmax : pp.pmax = some v) (hvw : v ≤ w)
    (hnn : ∀ a ∈ arraysOf (pre ++ ⟨pid, pname, .panel pp⟩ :: post),
      0 ≤ (a.props.panelsInSeries.getD 0) * (a.props.numberOfStrings.getD 0)) :
    totalSolarPower (pre ++ ⟨pid, pname, .panel pp⟩ :: post) ≤
      totalSolarPower (pre ++ ⟨pid, pname, .panel { pp with pmax := some w }⟩ :: post) ∧
    estimatedDailySolarProductionWh (pre ++ ⟨pid, pname, .panel pp⟩ :: post) si ≤
      estimatedDailySolarProductionWh
        (pre ++ ⟨pid, pname, .panel { pp with pmax := some w }⟩ :: post) si := by
  have harr : arraysOf (pre ++ ⟨pid, pname, .panel { pp with pmax := some w }⟩ :: post) =
      arraysOf (pre ++ ⟨pid, pname, .panel pp⟩ :: post) := by
    simp [arraysOf, List.filterMap_append, List.filterMap_cons]
  have hpan1 : panelsOf (pre ++ ⟨pid, pname, .panel pp⟩ :: post) =
      panelsOf pre ++ (⟨pid, pname, pp⟩ : TypedComp IndividualSolarPanelProps) :: panelsOf post := by
    simp [panelsOf, List.filterMap_append, List.filterMap_cons]
  have hpan2 : panelsOf (pre ++ ⟨pid, pname, .panel { pp with pmax := some w }⟩ :: post) =
      panelsOf pre ++
        (⟨pid, pname, { pp with pmax := some w }⟩ : TypedComp IndividualSolarPanelProps) ::
          panelsOf post := by
    simp [panelsOf, List.filterMap_append, List.filterMap_cons]
  have htotal : totalSolarPower (pre ++ ⟨pid, pname, .panel pp⟩ :: post) ≤
      totalSolarPower (pre ++ ⟨pid, pname, .panel { pp with pmax := some w }⟩ :: post) := by
    rw [totalSolarPower, totalSolarPower, harr, hpan1, hpan2]
    exact List.sum_le_sum fun a ha =>
      arrayPowerContribution_pmax_mono (panelsOf pre) (panelsOf post) pid pname pp v w
        hpmax hvw a (hnn a ha)
  refine ⟨htotal, ?_⟩
  rw [estimatedDailySolarProductionWh, estimatedDailySolarProductionWh]
  have hps : 0 ≤ si.peakSunHours := hvalid.1
  have heff : 0 ≤ si.solarPanelEfficiency / 100 := by
    have h1 := hvalid.2.2.2.2.2.2.1
    positivity
  exact mul_le_mul_of_nonneg_right (mul_le_mul_of_nonneg_right htotal hps) heff

/-- Witness for C4 (amended): pmax 1 → 2 with a well-formed 1×1 array. -/
theorem claim4_witness :
    totalSolarPower
        ([] ++ ⟨1, "Individual Solar Panel 1",
            .panel ⟨none, none, none, none, some 1, none, none, none⟩⟩ ::
          [⟨2, "Solar Array Configuration 1", .arrayConfig ⟨some 1, some 1, some 1, none⟩⟩]) ≤
      totalSolarPower
        ([] ++ ⟨1, "Individual Solar Panel 1",
            .panel ⟨none, none, none, none, some 2, none, none, none⟩⟩ ::
          [⟨2, "Solar Array Configuration 1", .arrayConfig ⟨some 1, some 1, some 1, none⟩⟩]) ∧
    estimatedDailySolarProductionWh
        ([] ++ ⟨1, "Individual Solar Panel 1",
            .panel ⟨none, none, none, none, some 1, none, none, none⟩⟩ ::
          [⟨2, "Solar Array Configuration 1", .arrayConfig ⟨some 1, some 1, some 1, none⟩⟩])
        defaultSystemInputs ≤
      estimatedDailySolarProductionWh
        ([] ++ ⟨1, "Individual Solar Panel 1",
            .panel ⟨none, none, none, none, some 2, none, none, none⟩⟩ ::
          [⟨2, "Solar Array Configuration 1", .arrayConfig ⟨some 1, some 1, some 1, none⟩⟩])
        defaultSystemInputs :=
  claim4_monotone_amended []
    [⟨2, "Solar Array Configuration 1", .arrayConfig ⟨some 1, some 1, some 1, none⟩⟩]
    1 "Individual Solar Panel 1" ⟨none, none, none, none, some 1, none, none, none⟩ 1 2
    defaultSystemInputs (by with_unfolding_all decide) rfl (by norm_num)
    (by with_unfolding_all decide)

/-- C7: an `ArrayConfig` whose `selectedPanelId` matches no panel's id
contributes exactly 0 to `totalSolarPower`: inserting it anywhere leaves
`totalSolarPower` unchanged.  (The embedded aggregator is a total function:
no fault is possible by construction.) -/
theorem claim7_dangling_panel (pre post : List Component) (aid : Nat) (an : String)
    (ap : SolarArrayConfigurationProps) (si : SystemInputs)
    (h : ∀ p ∈ panelsOf (pre ++ post), some p.id ≠ ap.selectedPanelId) :
    (stats (pre ++ ⟨aid, an, .arrayConfig ap⟩ :: post) si).totalSolarPower =
      (stats (pre ++ post) si).totalSolarPower := by
  have hpanels : panelsOf (pre ++ ⟨aid, an, .arrayConfig ap⟩ :: post) = panelsOf (pre ++ post) := by
    simp [panelsOf, List.filterMap_append, List.filterMap_cons]
  have harrays : arraysOf (pre ++ ⟨aid, an, .arrayConfig ap⟩ :: post) =
      arraysOf pre ++ (⟨aid, an, ap⟩ : TypedComp SolarArrayConfigurationProps) :: arraysOf post := by
    simp [arraysOf, List.filterMap_append, List.filterMap_cons]
  have harrays2 : arraysOf (pre ++ post) = arraysOf pre ++ arraysOf post := by
    simp [arraysOf, List.filterMap_append]
  have hzero : arrayPowerContribution (panelsOf (pre ++ post))
      (⟨aid, an, ap⟩ : TypedComp SolarArrayConfigurationProps) = 0 := by
    unfold arrayPowerContribution
    cases hsel : ap.selectedPanelId with
    | none => simp [findPanel]
    | some n =>
      have : (panelsOf (pre ++ post)).find? (fun p => p.id == n) = none := by
        rw [List.find?_eq_none]
        intro p hp
        simp only [beq_iff_eq]
        intro e
        exact h p hp (by rw [e, hsel])
      simp [findPanel, this]
  simp only [stats_totalSolarPower, totalSolarPower, hpanels, harrays, harrays2]
  rw [List.map_append, List.map_cons, List.sum_append, List.sum_cons, hzero,
    List.map_append, List.sum_append]
  ring

/-- Witness for C7 at a concrete input: an array referencing the
nonexistent panel id 7 leaves `totalSolarPower` unchanged. -/
theorem claim7_witness :
    (stats [⟨1, "Individual Solar Panel 1",
        .panel ⟨none, none, none, none, some 200, none, none, none⟩⟩,
      ⟨2, "Solar Array Configuration 1", .arrayConfig ⟨some 7, some 1, some 1, none⟩⟩]
      defaultSystemInputs).totalSolarPower =
    (stats [⟨1, "Individual Solar Panel 1",
        .panel ⟨none, none, none, none, some 200, none, none, none⟩⟩]
      defaultSystemInputs).totalSolarPower :=
  claim7_dangling_panel
    [⟨1, "Individual Solar Panel 1", .panel ⟨none, none, none, none, some 200, none, none, none⟩⟩]
    [] 2 "Solar Array Configuration 1" ⟨some 7, some 1, some 1, none⟩ defaultSystemInputs
    (by with_unfolding_all decide)

/-- Rule 5 is silent when both the total MPPT output current and the total
inverter power are 0: no C-rate condition can fire. -/
theorem batteryMessages_zero (b : TypedComp BatteryProps) : batteryMessages 0 0 b = [] := by
  unfold batteryMessages
  split
  · split_ifs with hc
    · rw [List.append_eq_nil]
      constructor
      · split
        · split_ifs <;> first | rfl | (exfalso; linarith) | (exfalso; nlinarith)
        · rfl
      · split
        · simp only [zero_div]
          split_ifs <;> first | rfl | (exfalso; linarith) | (exfalso; nlinarith)
        · rfl
    · rfl
  · rfl

/-- Counting a message in a conditional singleton that is not it. -/
theorem countP_ite_singleton (c : Prop) [Decidable c] (x : CategorizedMessage)
    (p : CategorizedMessage → Bool) (hx : p x = false) :
    ((if c then [x] else []).countP p) = 0 := by
  split_ifs <;> simp [hx, List.countP_cons, List.countP_nil]

/-- The rollup summaries never equal the mixed-voltage error message. -/
theorem countP_rollup_zero (cs : List Component) (core : List CategorizedMessage) :
    ((rollupMessages cs core).countP fun m => decide (m = mixedVoltageMsg)) = 0 := by
  unfold rollupMessages
  split_ifs <;> first | rfl | (simp [List.countP_cons, List.countP_nil]; decide)

/-- None of the production-sanity messages equals the mixed-voltage error. -/
theorem countP_prodSanity_zero (cs : List Component) (si : SystemInputs) :
    ((productionSanityMessages cs si).countP fun m => decide (m = mixedVoltageMsg)) = 0 := by
  unfold productionSanityMessages
  rw [List.countP_append, List.countP_append, List.countP_append]
  rw [countP_ite_singleton _ _ _ (by decide), countP_ite_singleton _ _ _ (by decide),
    countP_ite_singleton _ _ _ (by decide)]
  have : ((match productionToConsumptionRatio cs si with
      | some r =>
        if r < 80 then
          [mkMsg .warnSizing "Solar production <80% of adjusted consumption; expect deficit."]
        else if r > 150 then
          [mkMsg .info
            "Solar production >150% of adjusted consumption; consider more storage or curtailment strategy."]
        else []
      | none => []).countP fun m => decide (m = mixedVoltageMsg)) = 0 := by
    split <;> first | rfl | (split_ifs <;>
      first | rfl | (simp [List.countP_cons, List.countP_nil]; decide))
  rw [this]

/-- C5: with exactly two batteries whose nominal voltages parse to 12 and 24
(in that stored order) and arbitrary remaining battery fields, the
aggregator sets `voltageConsistencyIssue = true`, reports the first-seen
nominal voltage 12, and the diagnostics output contains exactly one copy of
the mixed-battery-voltage `error` message. -/
theorem claim5_mixed_voltage (id1 id2 : Nat) (n1 n2 : String) (p1 p2 : BatteryProps)
    (si : SystemInputs) (h1 : p1.nominalVoltage = some 12) (h2 : p2.nominalVoltage = some 24) :
    (stats [⟨id1, n1, .battery p1⟩, ⟨id2, n2, .battery p2⟩] si).voltageConsistencyIssue = true ∧
    (stats [⟨id1, n1, .battery p1⟩, ⟨id2, n2, .battery p2⟩] si).systemNominalVoltage = some 12 ∧
    ((messages [⟨id1, n1, .battery p1⟩, ⟨id2, n2, .battery p2⟩] si).countP
      fun m => decide (m = mixedVoltageMsg)) = 1 := by
  have hb : batteriesOf [⟨id1, n1, .battery p1⟩, ⟨id2, n2, .battery p2⟩] =
      [⟨id1, n1, p1⟩, ⟨id2, n2, p2⟩] := rfl
  have hv : batteryVoltagesList [⟨id1, n1, .battery p1⟩, ⟨id2, n2, .battery p2⟩] = [12, 24] := by
    rw [batteryVoltagesList, hb]
    norm_num [insertUnique, h1, h2]
  refine ⟨?_, ?_, ?_⟩
  · rw [stats_voltageIssue, hv]; rfl
  · rw [stats_nominalVoltage, hv]; rfl
  · have hmix : mixedVoltageMessages [⟨id1, n1, .battery p1⟩, ⟨id2, n2, .battery p2⟩] si =
        [mixedVoltageMsg] := by
      rw [mixedVoltageMessages, stats_voltageIssue, hv]
      rfl
    have ht : totalMpptOutputCurrent [⟨id1, n1, .battery p1⟩, ⟨id2, n2, .battery p2⟩] = 0 := rfl
    have hi : (stats [⟨id1, n1, .battery p1⟩, ⟨id2, n2, .battery p2⟩] si).totalInverterPower =
        0 := rfl
    have h5 : (batteriesOf [⟨id1, n1, .battery p1⟩, ⟨id2, n2, .battery p2⟩]).flatMap
        (batteryMessages
          (totalMpptOutputCurrent [⟨id1, n1, .battery p1⟩, ⟨id2, n2, .battery p2⟩])
          (stats [⟨id1, n1, .battery p1⟩, ⟨id2, n2, .battery p2⟩] si).totalInverterPower) =
        [] := by
      rw [ht, hi, hb]
      simp [batteryMessages_zero]
    rw [messages, List.countP_append, coreMessages, hmix, h5]
    have e1 : emptyNudgeMessages [⟨id1, n1, .battery p1⟩, ⟨id2, n2, .battery p2⟩] = [] := rfl
    have e3 : unassignedArrayMessages [⟨id1, n1, .battery p1⟩, ⟨id2, n2, .battery p2⟩] = [] := rfl
    have e4 : (mpptsOf [⟨id1, n1, .battery p1⟩, ⟨id2, n2, .battery p2⟩]).flatMap
        (mpptMessages [⟨id1, n1, .battery p1⟩, ⟨id2, n2, .battery p2⟩]) = [] := rfl
    have e6 : (invertersOf [⟨id1, n1, .battery p1⟩, ⟨id2, n2, .battery p2⟩]).flatMap
        (inverterMessages si) = [] := rfl
    rw [e1, e3, e4, e6]
    simp only [List.nil_append, List.append_nil]
    rw [List.countP_append, List.countP_append, countP_prodSanity_zero]
    have hnotes : (generalNotes.countP fun m => decide (m = mixedVoltageMsg)) = 0 := by decide
    have hone : (([mixedVoltageMsg] : List CategorizedMessage).countP
        fun m => decide (m = mixedVoltageMsg)) = 1 := by decide
    rw [hnotes, hone]
    rw [countP_rollup_zero]

/-- Witness for C5 at concrete batteries (12 V and 24 V, other fields
unparsable). -/
theorem claim5_witness :
    (stats [⟨1, "Battery 1", .battery ⟨some 12, none, none, none, none⟩⟩,
        ⟨2, "Battery 2", .battery ⟨some 24, none, none, none, none⟩⟩]
      defaultSystemInputs).voltageConsistencyIssue = true ∧
    (stats [⟨1, "Battery 1", .battery ⟨some 12, none, none, none, none⟩⟩,
        ⟨2, "Battery 2", .battery ⟨some 24, none, none, none, none⟩⟩]
      defaultSystemInputs).systemNominalVoltage = some 12 ∧
    ((messages [⟨1, "Battery 1", .battery ⟨some 12, none, none, none, none⟩⟩,
        ⟨2, "Battery 2", .battery ⟨some 24, none, none, none, none⟩⟩]
      defaultSystemInputs).countP fun m => decide (m = mixedVoltageMsg)) = 1 :=
  claim5_mixed_voltage 1 2 "Battery 1" "Battery 2"
    ⟨some 12, none, none, none, none⟩ ⟨some 24, none, none, none, none⟩
    defaultSystemInputs rfl rfl

/-- Every Voc-margin message is produced through `mkMsg`. -/
theorem shape_vocMargin (ps : List (TypedComp IndividualSolarPanelProps))
    (mp : TypedComp MpptChargeControllerProps) (a : TypedComp SolarArrayConfigurationProps) :
    ∀ m ∈ vocMarginMessages ps mp a, ∃ l b, m = mkMsg l b := by
  intro m hm
  unfold vocMarginMessages at hm
  repeat' split at hm
  all_goals try simp only [] at hm
  all_goals repeat' split at hm
  all_goals simp at hm
  all_goals exact ⟨_, _, hm⟩

/-- Every rule-4 message is produced through `mkMsg`. -/
theorem shape_mppt (cs : List Component) (mp : TypedComp MpptChargeControllerProps) :
    ∀ m ∈ mpptMessages cs mp, ∃ l b, m = mkMsg l b := by
  intro m hm
  unfold mpptMessages at hm
  simp only [List.mem_append] at hm
  rcases hm with ((hm | hm) | hm) | hm
  · split at hm <;> simp at hm
    exact ⟨_, _, hm⟩
  · rw [List.mem_flatMap] at hm
    obtain ⟨a, _, hma⟩ := hm
    exact shape_vocMargin _ mp a m hma
  · repeat' split at hm
    all_goals simp at hm
    all_goals exact ⟨_, _, hm⟩
  · repeat' split at hm
    all_goals simp at hm
    all_goals exact ⟨_, _, hm⟩

/-- Every rule-5 message is produced through `mkMsg`. -/
theorem shape_battery (t p : ℚ) (b : TypedComp BatteryProps) :
    ∀ m ∈ batteryMessages t p b, ∃ l b0, m = mkMsg l b0 := by
  intro m hm
  unfold batteryMessages at hm
  repeat' split at hm
  all_goals try simp only [List.mem_append] at hm
  all_goals try rcases hm with hm | hm
  all_goals try simp only [] at hm
  all_goals repeat' split at hm
  all_goals simp at hm
  all_goals exact ⟨_, _, hm⟩

/-- Every rule-6 message is produced through `mkMsg`. -/
theorem shape_inverter (si : SystemInputs) (inv : TypedComp InverterProps) :
    ∀ m ∈ inverterMessages si inv, ∃ l b, m = mkMsg l b := by
  intro m hm
  unfold inverterMessages at hm
  simp only [List.mem_append] at hm
  rcases hm with hm | hm
  all_goals repeat' split at hm
  all_goals simp at hm
  all_goals exact ⟨_, _, hm⟩

/-- Every rule-7 message is produced through `mkMsg`. -/
theorem shape_prodSanity (cs : List Component) (si : SystemInputs) :
    ∀ m ∈ productionSanityMessages cs si, ∃ l b, m = mkMsg l b := by
  intro m hm
  unfold productionSanityMessages at hm
  simp only [List.mem_append] at hm
  rcases hm with ((hm | hm) | hm) | hm
  all_goals repeat' split at hm
  all_goals simp at hm
  all_goals exact ⟨_, _, hm⟩

/-- Every rollup message is produced through `mkMsg`. -/
theorem shape_rollup (cs : List Component) (core : List CategorizedMessage) :
    ∀ m ∈ rollupMessages cs core, ∃ l b, m = mkMsg l b := by
  intro m hm
  unfold rollupMessages at hm
  repeat' split at hm
  all_goals simp at hm
  all_goals exact ⟨_, _, hm⟩

/-- Every message of the diagnostics engine is produced through `mkMsg`:
the pipeline's single push helper. -/
theorem messages_shape (cs : List Component) (si : SystemInputs) :
    ∀ m ∈ messages cs si, ∃ l b, m = mkMsg l b := by
  intro m hm
  unfold messages at hm
  rw [List.mem_append] at hm
  rcases hm with hm | hm
  · unfold coreMessages at hm
    simp only [List.mem_append] at hm
    rcases hm with ((((((hm | hm) | hm) | hm) | hm) | hm) | hm) | hm
    · unfold emptyNudgeMessages at hm
      repeat' split at hm
      all_goals simp at hm
      all_goals exact ⟨_, _, hm⟩
    · unfold mixedVoltageMessages mixedVoltageMsg at hm
      repeat' split at hm
      all_goals simp at hm
      all_goals exact ⟨_, _, hm⟩
    · unfold unassignedArrayMessages at hm
      repeat' split at hm
      all_goals simp at hm
      all_goals exact ⟨_, _, hm⟩
    · rw [List.mem_flatMap] at hm
      obtain ⟨mp, _, hmm⟩ := hm
      exact shape_mppt cs mp m hmm
    · rw [List.mem_flatMap] at hm
      obtain ⟨b, _, hmb⟩ := hm
      exact shape_battery _ _ b m hmb
    · rw [List.mem_flatMap] at hm
      obtain ⟨inv, _, hmi⟩ := hm
      exact shape_inverter si inv m hmi
    · exact shape_prodSanity cs si m hm
    · unfold generalNotes at hm
      simp at hm
      rcases hm with hm | hm
      all_goals exact ⟨_, _, hm⟩
  · exact shape_rollup cs _ m hm

/-- C9: every message in the diagnostics output has a text that begins with
the fixed marker determined by its level — `levelPrefixMap` maps `error` to
'Error:', `warn-safety` to 'Warning (Safety Margin):', `warn-sizing` to
'Warning (Sizing):', `warn-c-rate` to 'Warning (C-Rate):', `warn` to
'Warning:', `info-safety` to 'Info (Safety Margin):' and `info` to 'Info:'
— an invariant kept by every rule of the pipeline. -/
theorem claim9_level_marker (cs : List Component) (si : SystemInputs)
    (m : CategorizedMessage) (hm : m ∈ messages cs si) :
    ∃ body, m.text = levelPrefixMap m.level ++ " " ++ body := by
  obtain ⟨l, b, rfl⟩ := messages_shape cs si m hm
  exact ⟨b, rfl⟩

/-- Witness for C9: the empty-system info nudge carries the 'Info:' marker. -/
theorem claim9_witness :
    ∃ body, (mkMsg MessageLevel.info "Add components to start tracking your solar setup!").text =
      levelPrefixMap (mkMsg MessageLevel.info
        "Add components to start tracking your solar setup!").level ++ " " ++ body :=
  claim9_level_marker [] defaultSystemInputs _ (by with_unfolding_all decide)
